import Mathlib

/-!
Verification of the Silver-to-Gold star-schema transformation engine:
the SCD Type 2 customer dimension builder with its temporal surrogate-key
lookup (scd_handler), and the date/product/store dimension builders and the
fact builder (silver_to_gold).

Dates are modelled at day granularity as day numbers of the proleptic
Gregorian calendar (every transaction timestamp in this system is aligned
to midnight, so day granularity is exact).  Machine floats that the code
merely carries through untouched (unit_price, total_amount) are modelled
as rationals.  DataFrames are modelled as lists of records in row order.
-/

namespace RetailDataHub

/-! ## Calendar: proleptic Gregorian day numbers -/

def isLeapYear (y : Nat) : Bool :=
  (y % 4 == 0 && y % 100 != 0) || y % 400 == 0

/-- Cumulative day counts before each month, non-leap and leap years. -/
def daysBeforeMonth (leap : Bool) (m : Nat) : Nat :=
  let cumul :=
    if leap then [0, 31, 60, 91, 121, 152, 182, 213, 244, 274, 305, 335]
    else [0, 31, 59, 90, 120, 151, 181, 212, 243, 273, 304, 334]
  cumul.getD (m - 1) 0

structure Date where
  year : Nat
  month : Nat
  day : Nat
deriving DecidableEq, Repr

/-- Day number of a calendar date (days elapsed since 0001-01-01). -/
def Date.toDays (d : Date) : Nat :=
  let y := d.year - 1
  365 * y + y / 4 - y / 100 + y / 400 + daysBeforeMonth (isLeapYear d.year) d.month + (d.day - 1)

/-! ## SCD Type 2 customer dimension (scd_handler.py) -/

def unknownStateName : String := "Unknown"

def unknownCustomerId : String := "UNKNOWN"

structure Customer where
  customer_id : String
  name : String
  city : String
  state : String
deriving DecidableEq, Repr

structure ScdChange where
  old_city : String
  old_state : String
  new_city : String
  new_state : String
deriving DecidableEq, Repr

structure DimCustomerRow where
  customer_sk : Int
  customer_id : String
  customer_name : String
  city : String
  state : String
  valid_from : Nat
  valid_to : Option Nat
  is_current : Bool
  version : Nat
deriving DecidableEq, Repr

/-- Version 1 row for a customer with a declared change (original city). -/
def scdV1Row (c : Customer) (scd : ScdChange) (sk : Int) (startD cutoff : Nat) : DimCustomerRow :=
  { customer_sk := sk, customer_id := c.customer_id, customer_name := c.name,
    city := scd.old_city, state := scd.old_state,
    valid_from := startD, valid_to := some (cutoff - 1),
    is_current := false, version := 1 }

/-- Version 2 row for a customer with a declared change (new city). -/
def scdV2Row (c : Customer) (scd : ScdChange) (sk : Int) (cutoff : Nat) : DimCustomerRow :=
  { customer_sk := sk, customer_id := c.customer_id, customer_name := c.name,
    city := scd.new_city, state := scd.new_state,
    valid_from := cutoff, valid_to := none,
    is_current := true, version := 2 }

/-- Single row for a customer with no declared change. -/
def noChangeRow (c : Customer) (cities : List (String × String)) (sk : Int) (startD : Nat) :
    DimCustomerRow :=
  { customer_sk := sk, customer_id := c.customer_id, customer_name := c.name,
    city := c.city, state := (cities.lookup c.city).getD unknownStateName,
    valid_from := startD, valid_to := none,
    is_current := true, version := 1 }

/-- Row-building loop of build_dim_customer_scd2, threading the surrogate-key
counter through the customer iteration. -/
def buildDimRows (scdMap : List (String × ScdChange)) (cities : List (String × String))
    (startD cutoff : Nat) : List Customer → Int → List DimCustomerRow
  | [], _ => []
  | c :: rest, sk =>
    match scdMap.lookup c.customer_id with
    | some scd =>
        scdV1Row c scd sk startD cutoff :: scdV2Row c scd (sk + 1) cutoff ::
          buildDimRows scdMap cities startD cutoff rest (sk + 2)
    | none =>
        noChangeRow c cities sk startD :: buildDimRows scdMap cities startD cutoff rest (sk + 1)

/-- build_dim_customer_scd2: the surrogate-key counter starts at 1. -/
def build_dim_customer_scd2 (customers : List Customer) (scdMap : List (String × ScdChange))
    (cities : List (String × String)) (startD cutoff : Nat) : List DimCustomerRow :=
  buildDimRows scdMap cities startD cutoff customers 1

/-- The rows of the dimension belonging to one natural customer identifier
(the `matches` selection inside get_customer_sk). -/
def customerRows (dim : List DimCustomerRow) (cid : String) : List DimCustomerRow :=
  dim.filter (fun r => r.customer_id == cid)

/-- The far-future timestamp the code substitutes for a null valid_to
(pd.Timestamp 2099-12-31). -/
def maxFallbackDay : Nat := Date.toDays ⟨2099, 12, 31⟩

/-- The interval test of get_customer_sk: a null valid_to is replaced by the
2099-12-31 fallback timestamp before the comparison. -/
def inValidity (r : DimCustomerRow) (txn : Nat) : Bool :=
  decide (r.valid_from ≤ txn) && decide (txn ≤ r.valid_to.getD maxFallbackDay)

/-- The resolution chain of get_customer_sk on the rows of one customer:
first version whose interval contains the date, else first current version,
else the first row. -/
def resolveOnRows (rows : List DimCustomerRow) (txn : Nat) : Int :=
  match rows with
  | [] => -1
  | r0 :: rs =>
    match (r0 :: rs).find? (fun r => inValidity r txn) with
    | some r => r.customer_sk
    | none =>
      match (r0 :: rs).find? (fun r => r.is_current) with
      | some r => r.customer_sk
      | none => r0.customer_sk

/-- get_customer_sk.  An absent customer identifier is modelled as `none`
(pd.isna), the unknown sentinel as the literal string.  -/
def get_customer_sk (dim : List DimCustomerRow) (customer_id : Option String) (txn : Nat) : Int :=
  match customer_id with
  | none => -1
  | some cid =>
    if cid = unknownCustomerId then -1
    else resolveOnRows (customerRows dim cid) txn

/-- Modelled from the spec: the interval test of section 4.4, where a null
valid_to is treated as positive infinity.  Used only to compare the code
against the specified lookup semantics. -/
def specContains (r : DimCustomerRow) (txn : Nat) : Bool :=
  decide (r.valid_from ≤ txn) &&
    (match r.valid_to with
     | none => true
     | some vt => decide (txn ≤ vt))

/-- Modelled from the spec: resolution chain of section 4.4 over the rows of
one customer, with null valid_to read as positive infinity. -/
def resolveSpecRows (rows : List DimCustomerRow) (txn : Nat) : Int :=
  match rows with
  | [] => -1
  | r0 :: rs =>
    match (r0 :: rs).find? (fun r => specContains r txn) with
    | some r => r.customer_sk
    | none =>
      match (r0 :: rs).find? (fun r => r.is_current) with
      | some r => r.customer_sk
      | none => r0.customer_sk

/-- Modelled from the spec: the full temporal lookup of section 4.4. -/
def resolveSpec (dim : List DimCustomerRow) (cid : String) (txn : Nat) : Int :=
  resolveSpecRows (customerRows dim cid) txn

/-! ## Date dimension (silver_to_gold.py, build_dim_date)

Only the key and the calendar day are modelled; the remaining columns of the
source (year, quarter, weekday flags, ...) are pointwise functions of
full_date and play no role in any claim. -/

structure DimDateRow where
  date_key : Int
  full_date : Nat
deriving DecidableEq, Repr

/-- build_dim_date: one row per day of the inclusive range, keys counted from
1 in date order (pd.date_range is empty when the start exceeds the end). -/
def build_dim_date (minD maxD : Nat) : List DimDateRow :=
  (List.range (maxD + 1 - minD)).map
    (fun i => { date_key := Int.ofNat i + 1, full_date := minD + i })

/-! ## Product dimension (silver_to_gold.py, build_dim_product) -/

structure ProductTriple where
  product_id : String
  product_name : String
  category : String
deriving DecidableEq, Repr

structure DimProductRow where
  product_sk : Int
  product_id : String
  product_name : String
  category : String
deriving DecidableEq, Repr

def DimProductRow.triple (r : DimProductRow) : ProductTriple :=
  ⟨r.product_id, r.product_name, r.category⟩

/-- drop_duplicates: keep the first occurrence of each triple, in row order. -/
def dropDuplicatesAux (seen : List ProductTriple) : List ProductTriple → List ProductTriple
  | [] => []
  | t :: ts => if t ∈ seen then dropDuplicatesAux seen ts else t :: dropDuplicatesAux (t :: seen) ts

def dropDuplicates (l : List ProductTriple) : List ProductTriple :=
  dropDuplicatesAux [] l

/-- Ordering used by sort_values on the natural product identifier. -/
def prodLE (a b : ProductTriple) : Prop :=
  a.product_id ≤ b.product_id

instance : DecidableRel prodLE :=
  fun a b => inferInstanceAs (Decidable (a.product_id ≤ b.product_id))

instance : IsTotal ProductTriple prodLE :=
  ⟨fun a b => le_total a.product_id b.product_id⟩

instance : IsTrans ProductTriple prodLE :=
  ⟨fun _ _ _ hab hbc => le_trans hab hbc⟩

/-- Dense surrogate keys in list order, counted from the given start. -/
def assignSk (sk : Int) : List ProductTriple → List DimProductRow
  | [] => []
  | t :: ts =>
    { product_sk := sk, product_id := t.product_id, product_name := t.product_name,
      category := t.category } :: assignSk (sk + 1) ts

/-! ## Sale records (the unified_sales input table) -/

structure SaleRecord where
  sale_id : Int
  transaction_id : String
  transaction_date : Date
  store_id : String
  city : String
  customer_id : Option String
  product_id : String
  product_name : String
  category : String
  quantity : Int
  unit_price : Rat
  total_amount : Rat
  channel : String
deriving DecidableEq, Repr

def saleTriple (s : SaleRecord) : ProductTriple :=
  ⟨s.product_id, s.product_name, s.category⟩

/-- build_dim_product: distinct triples, sorted by product identifier, dense
keys counted from 1 in that order. -/
def build_dim_product (sales : List SaleRecord) : List DimProductRow :=
  assignSk 1 (List.insertionSort prodLE (dropDuplicates (sales.map saleTriple)))

/-! ## Store dimension (silver_to_gold.py, build_dim_store) -/

structure Store where
  store_id : String
  city : String
  state : String
deriving DecidableEq, Repr

structure DimStoreRow where
  store_sk : Int
  store_id : String
  city : String
  state : String
  region : String
deriving DecidableEq, Repr

/-- The fixed state-to-region lookup of get_region. -/
def REGIONS : List (String × String) :=
  [("Maharashtra", "West"), ("Gujarat", "West"), ("Rajasthan", "West"),
   ("Delhi", "North"), ("Uttar Pradesh", "North"),
   ("Karnataka", "South"), ("Tamil Nadu", "South"), ("Telangana", "South"),
   ("West Bengal", "East"), ("Online", "Online")]

def otherRegionName : String := "Other"

def get_region (state : String) : String :=
  (REGIONS.lookup state).getD otherRegionName

def assignStoreSk (sk : Int) : List Store → List DimStoreRow
  | [] => []
  | s :: ss =>
    { store_sk := sk, store_id := s.store_id, city := s.city, state := s.state,
      region := get_region s.state } :: assignStoreSk (sk + 1) ss

/-- build_dim_store: one row per physical store in input order, then the
synthetic WEB-ONLINE row. -/
def build_dim_store (stores : List Store) : List DimStoreRow :=
  let rows := assignStoreSk 1 stores
  rows ++ [{ store_sk := (rows.length : Int) + 1, store_id := "WEB-ONLINE",
             city := "Online", state := "Online", region := "Online" }]

/-! ## Fact builder (silver_to_gold.py, build_fact_sales) -/

structure FactRow where
  sale_id : Int
  transaction_id : String
  transaction_date : Date
  date_key : Int
  product_sk : Int
  store_sk : Int
  customer_sk : Int
  quantity : Int
  unit_price : Rat
  total_amount : Rat
  channel : String
  year : Nat
  month : Nat
deriving DecidableEq, Repr

/-- Date-key lookup against dim_date, with fillna(-1). -/
def dateKeyLookup (dimDate : List DimDateRow) (d : Date) : Int :=
  match dimDate.find? (fun r => r.full_date == d.toDays) with
  | some r => r.date_key
  | none => -1

/-- Product-key lookup against dim_product, with fillna(-1). -/
def productSkLookup (dimProduct : List DimProductRow) (pid : String) : Int :=
  match dimProduct.find? (fun r => r.product_id == pid) with
  | some r => r.product_sk
  | none => -1

/-- Store-key lookup against dim_store, with fillna(-1). -/
def storeSkLookup (dimStore : List DimStoreRow) (sid : String) : Int :=
  match dimStore.find? (fun r => r.store_id == sid) with
  | some r => r.store_sk
  | none => -1

/-- One fact row per sale record: the four key lookups, the measures carried
through unchanged, and the year/month partition columns. -/
def factRowOf (dimDate : List DimDateRow) (dimProduct : List DimProductRow)
    (dimStore : List DimStoreRow) (dimCustomer : List DimCustomerRow) (s : SaleRecord) : FactRow :=
  { sale_id := s.sale_id, transaction_id := s.transaction_id,
    transaction_date := s.transaction_date,
    date_key := dateKeyLookup dimDate s.transaction_date,
    product_sk := productSkLookup dimProduct s.product_id,
    store_sk := storeSkLookup dimStore s.store_id,
    customer_sk := get_customer_sk dimCustomer s.customer_id s.transaction_date.toDays,
    quantity := s.quantity, unit_price := s.unit_price, total_amount := s.total_amount,
    channel := s.channel, year := s.transaction_date.year, month := s.transaction_date.month }

def build_fact_sales (sales : List SaleRecord) (dimDate : List DimDateRow)
    (dimProduct : List DimProductRow) (dimStore : List DimStoreRow)
    (dimCustomer : List DimCustomerRow) : List FactRow :=
  sales.map (factRowOf dimDate dimProduct dimStore dimCustomer)

/-! ## Concrete fixtures for the witness theorems (Scenario A universe) -/

def cust0007 : String := "CUST-0007"

def cust0001 : String := "CUST-0001"

def demoCustomer7 : Customer :=
  { customer_id := cust0007, name := "Asha Mehta", city := "Pune", state := "Maharashtra" }

def demoCustomer1 : Customer :=
  { customer_id := cust0001, name := "Ravi Iyer", city := "Delhi", state := "Delhi" }

def demoCustomers : List Customer := [demoCustomer7, demoCustomer1]

def demoChange7 : ScdChange :=
  { old_city := "Pune", old_state := "Maharashtra",
    new_city := "Jaipur", new_state := "Rajasthan" }

def demoScdMap : List (String × ScdChange) := [(cust0007, demoChange7)]

def demoCities : List (String × String) :=
  [("Pune", "Maharashtra"), ("Delhi", "Delhi"), ("Jaipur", "Rajasthan")]

def demoStart : Nat := Date.toDays ⟨2023, 1, 1⟩

def demoCutoff : Nat := Date.toDays ⟨2024, 7, 1⟩

def demoDim : List DimCustomerRow :=
  build_dim_customer_scd2 demoCustomers demoScdMap demoCities demoStart demoCutoff

def demoStores : List Store :=
  [{ store_id := "STR-PUN-01", city := "Pune", state := "Maharashtra" },
   { store_id := "STR-DEL-01", city := "Delhi", state := "Delhi" }]

def demoDimStore : List DimStoreRow := build_dim_store demoStores

def demoDimDate : List DimDateRow :=
  build_dim_date (Date.toDays ⟨2024, 6, 1⟩) (Date.toDays ⟨2024, 7, 31⟩)

def demoSale1 : SaleRecord :=
  { sale_id := 1, transaction_id := "INV-000001", transaction_date := ⟨2024, 6, 15⟩,
    store_id := "STR-PUN-01", city := "Pune", customer_id := some cust0007,
    product_id := "P0001", product_name := "Bluetooth Speaker", category := "Electronics",
    quantity := 2, unit_price := 999, total_amount := 1998, channel := "POS" }

def demoSale2 : SaleRecord :=
  { sale_id := 2, transaction_id := "INV-000002", transaction_date := ⟨2024, 7, 1⟩,
    store_id := "STR-XXX-99", city := "Pune", customer_id := some cust0007,
    product_id := "P0002", product_name := "Cotton T-Shirt", category := "Clothing",
    quantity := 1, unit_price := 499, total_amount := 499, channel := "POS" }

def demoSale3 : SaleRecord :=
  { sale_id := 3, transaction_id := "WEB-000001", transaction_date := ⟨2024, 7, 15⟩,
    store_id := "WEB-ONLINE", city := "Online", customer_id := some unknownCustomerId,
    product_id := "P0001", product_name := "Bluetooth Speaker", category := "Electronics",
    quantity := 3, unit_price := 950, total_amount := 2850, channel := "Web" }

def demoSales : List SaleRecord := [demoSale1, demoSale2, demoSale3]

def demoDimProduct : List DimProductRow := build_dim_product demoSales

/-! ## General lemmas about the resolution chain -/

theorem resolveOnRows_mem (rows : List DimCustomerRow) (txn : Nat) :
    resolveOnRows rows txn = -1 ∨ ∃ r ∈ rows, resolveOnRows rows txn = r.customer_sk := by
  cases rows with
  | nil => exact Or.inl rfl
  | cons r0 rs =>
    right
    cases hf : (r0 :: rs).find? (fun r => inValidity r txn) with
    | some r =>
      exact ⟨r, List.mem_of_find?_eq_some hf, by simp [resolveOnRows, hf]⟩
    | none =>
      cases hc : (r0 :: rs).find? (fun r => r.is_current) with
      | some r =>
        exact ⟨r, List.mem_of_find?_eq_some hc, by simp [resolveOnRows, hf, hc]⟩
      | none =>
        exact ⟨r0, List.mem_cons_self r0 rs, by simp [resolveOnRows, hf, hc]⟩

theorem get_customer_sk_mem (dim : List DimCustomerRow) (oc : Option String) (txn : Nat) :
    get_customer_sk dim oc txn = -1 ∨
      ∃ r ∈ dim, get_customer_sk dim oc txn = r.customer_sk := by
  cases oc with
  | none => exact Or.inl rfl
  | some cid =>
    by_cases hu : cid = unknownCustomerId
    · exact Or.inl (by simp [get_customer_sk, hu])
    · have hg : get_customer_sk dim (some cid) txn = resolveOnRows (customerRows dim cid) txn := by
        simp [get_customer_sk, hu]
      rcases resolveOnRows_mem (customerRows dim cid) txn with h | ⟨r, hr, h⟩
      · exact Or.inl (hg.trans h)
      · exact Or.inr ⟨r, List.mem_of_mem_filter hr, hg.trans h⟩

theorem resolveOnRows_mem_cons (r0 : DimCustomerRow) (rs : List DimCustomerRow) (txn : Nat) :
    ∃ r ∈ r0 :: rs, resolveOnRows (r0 :: rs) txn = r.customer_sk := by
  cases hf : (r0 :: rs).find? (fun r => inValidity r txn) with
  | some r =>
    exact ⟨r, List.mem_of_find?_eq_some hf, by simp [resolveOnRows, hf]⟩
  | none =>
    cases hc : (r0 :: rs).find? (fun r => r.is_current) with
    | some r =>
      exact ⟨r, List.mem_of_find?_eq_some hc, by simp [resolveOnRows, hf, hc]⟩
    | none =>
      exact ⟨r0, List.mem_cons_self r0 rs, by simp [resolveOnRows, hf, hc]⟩

theorem get_customer_sk_known (dim : List DimCustomerRow) (cid : String) (txn : Nat)
    (hu : cid ≠ unknownCustomerId) :
    get_customer_sk dim (some cid) txn = resolveOnRows (customerRows dim cid) txn := by
  simp [get_customer_sk, hu]

/-! ## Structure of the customer rows produced by build_dim_customer_scd2 -/

theorem buildDimRows_filter_not_mem (scdMap : List (String × ScdChange))
    (cities : List (String × String)) (startD cutoff : Nat) (cid : String) :
    ∀ customers : List Customer, (∀ c ∈ customers, c.customer_id ≠ cid) → ∀ sk : Int,
      (buildDimRows scdMap cities startD cutoff customers sk).filter
        (fun r => r.customer_id == cid) = [] := by
  intro customers
  induction customers with
  | nil => intro _ _; rfl
  | cons c rest ih =>
    intro h sk
    have hc : c.customer_id ≠ cid := h c (List.mem_cons_self c rest)
    have hrest : ∀ x ∈ rest, x.customer_id ≠ cid := fun x hx => h x (List.mem_cons_of_mem c hx)
    cases hl : scdMap.lookup c.customer_id with
    | some scd =>
      simp [buildDimRows, hl, scdV1Row, scdV2Row, List.filter_cons, hc, ih hrest]
    | none =>
      simp [buildDimRows, hl, noChangeRow, List.filter_cons, hc, ih hrest]

theorem customerRows_build_some (scdMap : List (String × ScdChange))
    (cities : List (String × String)) (startD cutoff : Nat) (c : Customer) (scd : ScdChange)
    (hscd : scdMap.lookup c.customer_id = some scd) :
    ∀ customers : List Customer, (customers.map (fun x => x.customer_id)).Nodup →
      c ∈ customers → ∀ sk : Int, ∃ skc : Int,
      customerRows (buildDimRows scdMap cities startD cutoff customers sk) c.customer_id
        = [scdV1Row c scd skc startD cutoff, scdV2Row c scd (skc + 1) cutoff] := by
  intro customers
  induction customers with
  | nil => intro _ hc; cases hc
  | cons e rest ih =>
    intro hnd hc sk
    rw [List.map_cons, List.nodup_cons] at hnd
    obtain ⟨hdn, hnd2⟩ := hnd
    rcases List.mem_cons.mp hc with rfl | hcr
    · refine ⟨sk, ?_⟩
      have hrest : ∀ x ∈ rest, x.customer_id ≠ c.customer_id := by
        intro x hx heq
        exact hdn (heq ▸ List.mem_map_of_mem (fun y => y.customer_id) hx)
      have htail := buildDimRows_filter_not_mem scdMap cities startD cutoff
        c.customer_id rest hrest (sk + 2)
      simp [customerRows, buildDimRows, hscd, List.filter_cons, scdV1Row, scdV2Row, htail]
    · have hdc : e.customer_id ≠ c.customer_id := by
        intro heq
        exact hdn (heq ▸ List.mem_map_of_mem (fun y => y.customer_id) hcr)
      cases hl : scdMap.lookup e.customer_id with
      | some scd2 =>
        obtain ⟨skc, hskc⟩ := ih hnd2 hcr (sk + 2)
        refine ⟨skc, ?_⟩
        rw [customerRows] at hskc ⊢
        simp [buildDimRows, hl, List.filter_cons, scdV1Row, scdV2Row, hdc, hskc]
      | none =>
        obtain ⟨skc, hskc⟩ := ih hnd2 hcr (sk + 1)
        refine ⟨skc, ?_⟩
        rw [customerRows] at hskc ⊢
        simp [buildDimRows, hl, List.filter_cons, noChangeRow, hdc, hskc]

theorem customerRows_build_none (scdMap : List (String × ScdChange))
    (cities : List (String × String)) (startD cutoff : Nat) (c : Customer)
    (hscd : scdMap.lookup c.customer_id = none) :
    ∀ customers : List Customer, (customers.map (fun x => x.customer_id)).Nodup →
      c ∈ customers → ∀ sk : Int, ∃ skc : Int,
      customerRows (buildDimRows scdMap cities startD cutoff customers sk) c.customer_id
        = [noChangeRow c cities skc startD] := by
  intro customers
  induction customers with
  | nil => intro _ hc; cases hc
  | cons e rest ih =>
    intro hnd hc sk
    rw [List.map_cons, List.nodup_cons] at hnd
    obtain ⟨hdn, hnd2⟩ := hnd
    rcases List.mem_cons.mp hc with rfl | hcr
    · refine ⟨sk, ?_⟩
      have hrest : ∀ x ∈ rest, x.customer_id ≠ c.customer_id := by
        intro x hx heq
        exact hdn (heq ▸ List.mem_map_of_mem (fun y => y.customer_id) hx)
      have htail := buildDimRows_filter_not_mem scdMap cities startD cutoff
        c.customer_id rest hrest (sk + 1)
      simp [customerRows, buildDimRows, hscd, List.filter_cons, noChangeRow, htail]
    · have hdc : e.customer_id ≠ c.customer_id := by
        intro heq
        exact hdn (heq ▸ List.mem_map_of_mem (fun y => y.customer_id) hcr)
      cases hl : scdMap.lookup e.customer_id with
      | some scd2 =>
        obtain ⟨skc, hskc⟩ := ih hnd2 hcr (sk + 2)
        refine ⟨skc, ?_⟩
        rw [customerRows] at hskc ⊢
        simp [buildDimRows, hl, List.filter_cons, scdV1Row, scdV2Row, hdc, hskc]
      | none =>
        obtain ⟨skc, hskc⟩ := ih hnd2 hcr (sk + 1)
        refine ⟨skc, ?_⟩
        rw [customerRows] at hskc ⊢
        simp [buildDimRows, hl, List.filter_cons, noChangeRow, hdc, hskc]

/-! ## Computation of the resolution chain on the produced row shapes -/

theorem resolveOnRows_scd_pair (c : Customer) (scd : ScdChange) (sk : Int)
    (startD cutoff d : Nat) (hsc : startD < cutoff) (hd : startD ≤ d) :
    resolveOnRows [scdV1Row c scd sk startD cutoff, scdV2Row c scd (sk + 1) cutoff] d
      = if d < cutoff then sk else sk + 1 := by
  by_cases h1 : d < cutoff
  · have hv : inValidity (scdV1Row c scd sk startD cutoff) d = true := by
      simp only [inValidity, scdV1Row, Option.getD]
      simp only [Bool.and_eq_true, decide_eq_true_eq]
      omega
    rw [if_pos h1]
    simp only [resolveOnRows, List.find?_cons, hv]
    simp [scdV1Row]
  · have hv1 : inValidity (scdV1Row c scd sk startD cutoff) d = false := by
      simp only [inValidity, scdV1Row, Option.getD]
      simp only [Bool.and_eq_false_iff, decide_eq_false_iff_not]
      omega
    by_cases h2 : d ≤ maxFallbackDay
    · have hv2 : inValidity (scdV2Row c scd (sk + 1) cutoff) d = true := by
        simp only [inValidity, scdV2Row, Option.getD]
        simp only [Bool.and_eq_true, decide_eq_true_eq]
        omega
      rw [if_neg h1]
      simp only [resolveOnRows, List.find?_cons, hv1, hv2]
      simp [scdV2Row]
    · have hv2 : inValidity (scdV2Row c scd (sk + 1) cutoff) d = false := by
        simp only [inValidity, scdV2Row, Option.getD]
        simp only [Bool.and_eq_false_iff, decide_eq_false_iff_not]
        omega
      rw [if_neg h1]
      simp only [resolveOnRows, List.find?_cons, hv1, hv2]
      simp [List.find?_cons, scdV1Row, scdV2Row]

theorem resolveOnRows_scd_pair_pre (c : Customer) (scd : ScdChange) (sk : Int)
    (startD cutoff d : Nat) (hsc : startD < cutoff) (hd : d < startD) :
    resolveOnRows [scdV1Row c scd sk startD cutoff, scdV2Row c scd (sk + 1) cutoff] d
      = sk + 1 := by
  have hv1 : inValidity (scdV1Row c scd sk startD cutoff) d = false := by
    simp only [inValidity, scdV1Row, Option.getD]
    simp only [Bool.and_eq_false_iff, decide_eq_false_iff_not]
    omega
  have hv2 : inValidity (scdV2Row c scd (sk + 1) cutoff) d = false := by
    simp only [inValidity, scdV2Row, Option.getD]
    simp only [Bool.and_eq_false_iff, decide_eq_false_iff_not]
    omega
  simp only [resolveOnRows, List.find?_cons, hv1, hv2]
  simp [List.find?_cons, scdV1Row, scdV2Row]

theorem resolveOnRows_current_single (r : DimCustomerRow) (d : Nat)
    (hcur : r.is_current = true) :
    resolveOnRows [r] d = r.customer_sk := by
  by_cases hv : inValidity r d
  · simp [resolveOnRows, List.find?_cons, hv]
  · simp [resolveOnRows, List.find?_cons, hv, hcur]

theorem resolveSpecRows_current_single (r : DimCustomerRow) (d : Nat)
    (hcur : r.is_current = true) :
    resolveSpecRows [r] d = r.customer_sk := by
  by_cases hv : specContains r d
  · simp [resolveSpecRows, List.find?_cons, hv]
  · simp [resolveSpecRows, List.find?_cons, hv, hcur]

/-- On the two-row shape the dimension builder produces, the code resolution
chain (with its 2099-12-31 fallback timestamp for null valid_to) agrees with
the specified chain (null valid_to read as positive infinity). -/
theorem resolve_pair_spec_eq (r1 r2 : DimCustomerRow) (d : Nat) (vt : Nat)
    (hvt : r1.valid_to = some vt) (h2 : r2.valid_to = none)
    (hc1 : r1.is_current = false) (hc2 : r2.is_current = true) :
    resolveOnRows [r1, r2] d = resolveSpecRows [r1, r2] d := by
  have he1 : inValidity r1 d = specContains r1 d := by
    simp [inValidity, specContains, hvt]
  by_cases hp1 : specContains r1 d = true
  · rw [resolveOnRows, resolveSpecRows]
    simp [List.find?_cons, he1, hp1]
  · have hp1f : specContains r1 d = false := by simpa using hp1
    have hi1 : inValidity r1 d = false := he1.trans hp1f
    have hs2 : specContains r2 d = decide (r2.valid_from ≤ d) := by
      simp [specContains, h2]
    by_cases hi2 : inValidity r2 d = true
    · have hvf : r2.valid_from ≤ d := by
        rw [inValidity, Bool.and_eq_true, decide_eq_true_eq] at hi2
        exact hi2.1
      have hs2t : specContains r2 d = true := by rw [hs2]; simpa using hvf
      rw [resolveOnRows, resolveSpecRows]
      simp [List.find?_cons, hi1, hi2, hp1f, hs2t]
    · have hi2f : inValidity r2 d = false := by simpa using hi2
      by_cases hs2t : specContains r2 d = true
      · rw [resolveOnRows, resolveSpecRows]
        simp [List.find?_cons, hi1, hi2f, hp1f, hs2t, hc1, hc2]
      · have hs2f : specContains r2 d = false := by simpa using hs2t
        rw [resolveOnRows, resolveSpecRows]
        simp [List.find?_cons, hi1, hi2f, hp1f, hs2f, hc1, hc2]

/-! ## Claims about the fact builder and the date dimension -/

/-- Claim C4: every foreign key of every fact row is either a key present in
the corresponding dimension table or exactly -1; the keys are total integer
values, so no foreign key is ever null. -/
theorem claim_C4_fact_fk_sentinel (sales : List SaleRecord) (dd : List DimDateRow)
    (dp : List DimProductRow) (ds : List DimStoreRow) (dc : List DimCustomerRow) :
    ∀ f ∈ build_fact_sales sales dd dp ds dc,
      (f.date_key = -1 ∨ ∃ r ∈ dd, f.date_key = r.date_key) ∧
      (f.product_sk = -1 ∨ ∃ r ∈ dp, f.product_sk = r.product_sk) ∧
      (f.store_sk = -1 ∨ ∃ r ∈ ds, f.store_sk = r.store_sk) ∧
      (f.customer_sk = -1 ∨ ∃ r ∈ dc, f.customer_sk = r.customer_sk) := by
  intro f hf
  simp only [build_fact_sales, List.mem_map] at hf
  obtain ⟨s, _, rfl⟩ := hf
  refine ⟨?_, ?_, ?_, ?_⟩
  · cases hfind : dd.find? (fun r => r.full_date == s.transaction_date.toDays) with
    | some r =>
      exact Or.inr ⟨r, List.mem_of_find?_eq_some hfind, by simp [factRowOf, dateKeyLookup, hfind]⟩
    | none => exact Or.inl (by simp [factRowOf, dateKeyLookup, hfind])
  · cases hfind : dp.find? (fun r => r.product_id == s.product_id) with
    | some r =>
      exact Or.inr ⟨r, List.mem_of_find?_eq_some hfind,
        by simp [factRowOf, productSkLookup, hfind]⟩
    | none => exact Or.inl (by simp [factRowOf, productSkLookup, hfind])
  · cases hfind : ds.find? (fun r => r.store_id == s.store_id) with
    | some r =>
      exact Or.inr ⟨r, List.mem_of_find?_eq_some hfind, by simp [factRowOf, storeSkLookup, hfind]⟩
    | none => exact Or.inl (by simp [factRowOf, storeSkLookup, hfind])
  · exact get_customer_sk_mem dc s.customer_id s.transaction_date.toDays

/-- Witness for claim C4 at the concrete demo universe: the second demo sale
references a store that is not in the store universe. -/
theorem claim_C4_fact_fk_sentinel_witness :
    factRowOf demoDimDate demoDimProduct demoDimStore demoDim demoSale2 ∈
        build_fact_sales demoSales demoDimDate demoDimProduct demoDimStore demoDim ∧
      ((factRowOf demoDimDate demoDimProduct demoDimStore demoDim demoSale2).date_key = -1 ∨
          ∃ r ∈ demoDimDate,
            (factRowOf demoDimDate demoDimProduct demoDimStore demoDim demoSale2).date_key
              = r.date_key) ∧
      ((factRowOf demoDimDate demoDimProduct demoDimStore demoDim demoSale2).product_sk = -1 ∨
          ∃ r ∈ demoDimProduct,
            (factRowOf demoDimDate demoDimProduct demoDimStore demoDim demoSale2).product_sk
              = r.product_sk) ∧
      ((factRowOf demoDimDate demoDimProduct demoDimStore demoDim demoSale2).store_sk = -1 ∨
          ∃ r ∈ demoDimStore,
            (factRowOf demoDimDate demoDimProduct demoDimStore demoDim demoSale2).store_sk
              = r.store_sk) ∧
      ((factRowOf demoDimDate demoDimProduct demoDimStore demoDim demoSale2).customer_sk = -1 ∨
          ∃ r ∈ demoDim,
            (factRowOf demoDimDate demoDimProduct demoDimStore demoDim demoSale2).customer_sk
              = r.customer_sk) := by
  have hmem : factRowOf demoDimDate demoDimProduct demoDimStore demoDim demoSale2 ∈
      build_fact_sales demoSales demoDimDate demoDimProduct demoDimStore demoDim := by
    exact List.mem_map_of_mem _ (by decide)
  exact ⟨hmem,
    claim_C4_fact_fk_sentinel demoSales demoDimDate demoDimProduct demoDimStore demoDim _ hmem⟩

/-- Claim C5: the fact table has exactly one row per input sale record, and a
sale whose store identifier is absent from the store universe is retained
with store_sk = -1. -/
theorem claim_C5_fact_row_preservation (sales : List SaleRecord) (dd : List DimDateRow)
    (dp : List DimProductRow) (ds : List DimStoreRow) (dc : List DimCustomerRow) :
    (build_fact_sales sales dd dp ds dc).length = sales.length ∧
    ∀ s ∈ sales, (∀ r ∈ ds, r.store_id ≠ s.store_id) →
      factRowOf dd dp ds dc s ∈ build_fact_sales sales dd dp ds dc ∧
      (factRowOf dd dp ds dc s).store_sk = -1 := by
  refine ⟨by simp [build_fact_sales], ?_⟩
  intro s hs hstore
  refine ⟨List.mem_map_of_mem _ hs, ?_⟩
  show storeSkLookup ds s.store_id = -1
  unfold storeSkLookup
  have hnone : ds.find? (fun r => r.store_id == s.store_id) = none := by
    rw [List.find?_eq_none]
    intro r hr
    simpa using hstore r hr
  rw [hnone]

/-- Witness for claim C5: the demo sale referencing STR-XXX-99, which is not
in the demo store universe. -/
theorem claim_C5_fact_row_preservation_witness :
    ((build_fact_sales demoSales demoDimDate demoDimProduct demoDimStore demoDim).length
        = demoSales.length ∧
      (factRowOf demoDimDate demoDimProduct demoDimStore demoDim demoSale2 ∈
          build_fact_sales demoSales demoDimDate demoDimProduct demoDimStore demoDim ∧
        (factRowOf demoDimDate demoDimProduct demoDimStore demoDim demoSale2).store_sk = -1)) ∧
    (build_fact_sales demoSales demoDimDate demoDimProduct demoDimStore demoDim).length = 3 := by
  refine ⟨⟨?_, ?_⟩, by decide⟩
  · exact (claim_C5_fact_row_preservation demoSales demoDimDate demoDimProduct demoDimStore
      demoDim).1
  · exact (claim_C5_fact_row_preservation demoSales demoDimDate demoDimProduct demoDimStore
      demoDim).2 demoSale2 (by decide) (by decide)

/-- Claim C6: build_dim_date produces one row per calendar day of the
inclusive range in date order, with no gaps and no duplicates, and date_key
is the dense sequence 1..N in date order. -/
theorem claim_C6_dim_date_spine (minD maxD : Nat) (h : minD ≤ maxD) :
    (build_dim_date minD maxD).length = maxD - minD + 1 ∧
    (build_dim_date minD maxD).map (fun r => r.full_date) = List.range' minD (maxD - minD + 1) ∧
    (build_dim_date minD maxD).map (fun r => r.date_key)
      = (List.range (maxD - minD + 1)).map (fun i => Int.ofNat i + 1) := by
  have hn : maxD + 1 - minD = maxD - minD + 1 := by omega
  refine ⟨?_, ?_, ?_⟩
  · simp [build_dim_date, hn]
  · rw [build_dim_date, hn, List.map_map, List.range'_eq_map_range]
    rfl
  · rw [build_dim_date, hn, List.map_map]
    rfl

set_option maxRecDepth 10000 in
/-- Witness for claim C6 at Scenario B: the range 2023-01-01 to 2025-01-31 is
762 days, with keys 1..762 and the first and last rows carrying the two
boundary dates. -/
theorem claim_C6_dim_date_spine_witness :
    (Date.toDays ⟨2023, 1, 1⟩ ≤ Date.toDays ⟨2025, 1, 31⟩ ∧
      ((build_dim_date (Date.toDays ⟨2023, 1, 1⟩) (Date.toDays ⟨2025, 1, 31⟩)).length
          = Date.toDays ⟨2025, 1, 31⟩ - Date.toDays ⟨2023, 1, 1⟩ + 1 ∧
        (build_dim_date (Date.toDays ⟨2023, 1, 1⟩) (Date.toDays ⟨2025, 1, 31⟩)).map
            (fun r => r.full_date)
          = List.range' (Date.toDays ⟨2023, 1, 1⟩)
              (Date.toDays ⟨2025, 1, 31⟩ - Date.toDays ⟨2023, 1, 1⟩ + 1) ∧
        (build_dim_date (Date.toDays ⟨2023, 1, 1⟩) (Date.toDays ⟨2025, 1, 31⟩)).map
            (fun r => r.date_key)
          = (List.range (Date.toDays ⟨2025, 1, 31⟩ - Date.toDays ⟨2023, 1, 1⟩ + 1)).map
              (fun i => Int.ofNat i + 1))) ∧
    (build_dim_date (Date.toDays ⟨2023, 1, 1⟩) (Date.toDays ⟨2025, 1, 31⟩)).length = 762 ∧
    ((build_dim_date (Date.toDays ⟨2023, 1, 1⟩) (Date.toDays ⟨2025, 1, 31⟩)).map
        (fun r => r.full_date)).head? = some (Date.toDays ⟨2023, 1, 1⟩) ∧
    ((build_dim_date (Date.toDays ⟨2023, 1, 1⟩) (Date.toDays ⟨2025, 1, 31⟩)).map
        (fun r => r.full_date)).getLast? = some (Date.toDays ⟨2025, 1, 31⟩) ∧
    ((build_dim_date (Date.toDays ⟨2023, 1, 1⟩) (Date.toDays ⟨2025, 1, 31⟩)).map
        (fun r => r.date_key)).head? = some 1 ∧
    ((build_dim_date (Date.toDays ⟨2023, 1, 1⟩) (Date.toDays ⟨2025, 1, 31⟩)).map
        (fun r => r.date_key)).getLast? = some 762 := by
  refine ⟨⟨by decide, claim_C6_dim_date_spine _ _ (by decide)⟩, ?_, ?_, ?_, ?_, ?_⟩
  · rfl
  · rfl
  · rfl
  · rfl
  · rfl

/-- Claim C7: the unknown sentinel and an absent customer identifier resolve
to -1 immediately, for every transaction date and every dimension table. -/
theorem claim_C7_unknown_customer (dim : List DimCustomerRow) (txn : Nat) :
    get_customer_sk dim none txn = -1 ∧
    get_customer_sk dim (some unknownCustomerId) txn = -1 := by
  exact ⟨rfl, by simp [get_customer_sk]⟩

/-- Claim C9: the measures quantity, unit_price, total_amount and the channel
of every fact row are carried through from the input sale record unchanged;
the builder is a pure function of its dimension inputs, which are never
mutated. -/
theorem claim_C9_measures_unchanged (sales : List SaleRecord) (dd : List DimDateRow)
    (dp : List DimProductRow) (ds : List DimStoreRow) (dc : List DimCustomerRow) :
    (build_fact_sales sales dd dp ds dc).map
        (fun f => (f.quantity, f.unit_price, f.total_amount, f.channel))
      = sales.map (fun s => (s.quantity, s.unit_price, s.total_amount, s.channel)) := by
  rw [build_fact_sales, List.map_map]
  rfl

/-! ## Claims about the SCD Type 2 dimension and its temporal lookup -/

/-- Claim C1: for a customer with a declared change at the cutoff, the
temporal lookup resolves a transaction dated in the global range strictly
before the cutoff to the version-1 (before-change) key and a transaction
dated at or after the cutoff to the version-2 (after-change) key, so for a
fixed customer the resolved key changes exactly once, at the cutoff. -/
theorem claim_C1_scd_temporal_resolution (customers : List Customer)
    (scdMap : List (String × ScdChange)) (cities : List (String × String))
    (startD cutoff : Nat) (hnd : (customers.map (fun x => x.customer_id)).Nodup)
    (hsc : startD < cutoff) (c : Customer) (hc : c ∈ customers) (scd : ScdChange)
    (hscd : scdMap.lookup c.customer_id = some scd) (hu : c.customer_id ≠ unknownCustomerId)
    (d : Nat) (hd : startD ≤ d) :
    ∃ r1 r2 : DimCustomerRow,
      customerRows (build_dim_customer_scd2 customers scdMap cities startD cutoff)
          c.customer_id = [r1, r2] ∧
      r1.version = 1 ∧ r1.city = scd.old_city ∧ r2.version = 2 ∧ r2.city = scd.new_city ∧
      r1.customer_sk ≠ r2.customer_sk ∧
      get_customer_sk (build_dim_customer_scd2 customers scdMap cities startD cutoff)
          (some c.customer_id) d
        = if d < cutoff then r1.customer_sk else r2.customer_sk := by
  unfold build_dim_customer_scd2
  obtain ⟨skc, hrows⟩ :=
    customerRows_build_some scdMap cities startD cutoff c scd hscd customers hnd hc 1
  refine ⟨_, _, hrows, rfl, rfl, rfl, rfl, ?_, ?_⟩
  · simp only [scdV1Row, scdV2Row]
    omega
  · rw [get_customer_sk_known _ _ _ hu, hrows,
      resolveOnRows_scd_pair c scd skc startD cutoff d hsc hd]
    simp [scdV1Row, scdV2Row]

/-- Witness for claim C1 at Scenario A: CUST-0007 changes from Pune to Jaipur
at 2024-07-01 (day 739067); a sale on 2024-06-15 (739051) resolves to the
Pune key 1, sales on 2024-07-01 (739067) and 2024-07-15 (739081) resolve to
the Jaipur key 2. -/
theorem claim_C1_scd_temporal_resolution_witness :
    ((demoCustomers.map (fun x => x.customer_id)).Nodup ∧ demoStart < demoCutoff ∧
      demoCustomer7 ∈ demoCustomers ∧
      demoScdMap.lookup demoCustomer7.customer_id = some demoChange7 ∧
      demoCustomer7.customer_id ≠ unknownCustomerId ∧ demoStart ≤ 739051) ∧
    (∃ r1 r2 : DimCustomerRow,
      customerRows (build_dim_customer_scd2 demoCustomers demoScdMap demoCities
          demoStart demoCutoff) demoCustomer7.customer_id = [r1, r2] ∧
      r1.version = 1 ∧ r1.city = demoChange7.old_city ∧
      r2.version = 2 ∧ r2.city = demoChange7.new_city ∧
      r1.customer_sk ≠ r2.customer_sk ∧
      get_customer_sk (build_dim_customer_scd2 demoCustomers demoScdMap demoCities
          demoStart demoCutoff) (some demoCustomer7.customer_id) 739051
        = if 739051 < demoCutoff then r1.customer_sk else r2.customer_sk) ∧
    get_customer_sk demoDim (some cust0007) 739051 = 1 ∧
    get_customer_sk demoDim (some cust0007) 739067 = 2 ∧
    get_customer_sk demoDim (some cust0007) 739081 = 2 := by
  refine ⟨⟨by decide, by decide, by decide, by decide, by decide, by decide⟩,
    ?_, by decide, by decide, by decide⟩
  exact claim_C1_scd_temporal_resolution demoCustomers demoScdMap demoCities demoStart
    demoCutoff (by decide) (by decide) demoCustomer7 (by decide) demoChange7 (by decide)
    (by decide) 739051 (by decide)

/-- Claim C2: a customer with a declared change has exactly two dimension
rows, version 1 closing at cutoff minus one day and not current, version 2
opening at the cutoff, open-ended and the only current row; a customer
without a change has exactly one open-ended current row; and for every day
from the global start on, exactly one of the customer rows contains it. -/
theorem claim_C2_scd_dim_invariants (customers : List Customer)
    (scdMap : List (String × ScdChange)) (cities : List (String × String))
    (startD cutoff : Nat) (hnd : (customers.map (fun x => x.customer_id)).Nodup)
    (hsc : startD < cutoff) (c : Customer) (hc : c ∈ customers) :
    (∀ scd : ScdChange, scdMap.lookup c.customer_id = some scd →
      ∃ r1 r2 : DimCustomerRow,
        customerRows (build_dim_customer_scd2 customers scdMap cities startD cutoff)
            c.customer_id = [r1, r2] ∧
        r1.version = 1 ∧ r2.version = 2 ∧
        r1.valid_from = startD ∧ r1.valid_to = some (cutoff - 1) ∧ r1.is_current = false ∧
        r2.valid_from = cutoff ∧ r2.valid_to = none ∧ r2.is_current = true ∧
        (∀ d : Nat, startD ≤ d →
          (specContains r1 d = true ∧ specContains r2 d = false) ∨
          (specContains r1 d = false ∧ specContains r2 d = true))) ∧
    (scdMap.lookup c.customer_id = none →
      ∃ r : DimCustomerRow,
        customerRows (build_dim_customer_scd2 customers scdMap cities startD cutoff)
            c.customer_id = [r] ∧
        r.valid_from = startD ∧ r.valid_to = none ∧ r.is_current = true ∧ r.version = 1 ∧
        (∀ d : Nat, startD ≤ d → specContains r d = true)) := by
  unfold build_dim_customer_scd2
  constructor
  · intro scd hscd
    obtain ⟨skc, hrows⟩ :=
      customerRows_build_some scdMap cities startD cutoff c scd hscd customers hnd hc 1
    refine ⟨_, _, hrows, rfl, rfl, rfl, rfl, rfl, rfl, rfl, rfl, ?_⟩
    intro d hd
    by_cases hdc : d < cutoff
    · left
      constructor
      · simp only [specContains, scdV1Row, Bool.and_eq_true, decide_eq_true_eq]
        omega
      · simp only [specContains, scdV2Row, Bool.and_true, decide_eq_false_iff_not]
        omega
    · right
      constructor
      · simp only [specContains, scdV1Row, Bool.and_eq_false_iff, decide_eq_false_iff_not]
        omega
      · simp only [specContains, scdV2Row, Bool.and_true, decide_eq_true_eq]
        omega
  · intro hscd
    obtain ⟨skc, hrows⟩ :=
      customerRows_build_none scdMap cities startD cutoff c hscd customers hnd hc 1
    refine ⟨_, hrows, rfl, rfl, rfl, rfl, ?_⟩
    intro d hd
    simp only [specContains, noChangeRow, Bool.and_true, decide_eq_true_eq]
    exact hd

/-- Witness for claim C2 on the demo universe: the changed customer CUST-0007
gets exactly two rows, the unchanged customer CUST-0001 exactly one. -/
theorem claim_C2_scd_dim_invariants_witness :
    ((demoCustomers.map (fun x => x.customer_id)).Nodup ∧ demoStart < demoCutoff ∧
      demoCustomer7 ∈ demoCustomers ∧ demoCustomer1 ∈ demoCustomers) ∧
    (customerRows (build_dim_customer_scd2 demoCustomers demoScdMap demoCities demoStart
        demoCutoff) demoCustomer7.customer_id).length = 2 ∧
    (customerRows (build_dim_customer_scd2 demoCustomers demoScdMap demoCities demoStart
        demoCutoff) demoCustomer1.customer_id).length = 1 := by
  refine ⟨⟨by decide, by decide, by decide, by decide⟩, ?_, ?_⟩
  · obtain ⟨r1, r2, hrows, -⟩ :=
      (claim_C2_scd_dim_invariants demoCustomers demoScdMap demoCities demoStart demoCutoff
        (by decide) (by decide) demoCustomer7 (by decide)).1 demoChange7 (by decide)
    rw [hrows]
    rfl
  · obtain ⟨r, hrow, -⟩ :=
      (claim_C2_scd_dim_invariants demoCustomers demoScdMap demoCities demoStart demoCutoff
        (by decide) (by decide) demoCustomer1 (by decide)).2 (by decide)
    rw [hrow]
    rfl

/-- Claim C3: for every customer identifier present in the built dimension
(and not the unknown sentinel) and every transaction date, get_customer_sk
agrees with the specified fallback chain (interval match with null valid_to
read as positive infinity, else the current version, else the first row) and
always returns the surrogate key of a row belonging to that customer. -/
theorem claim_C3_lookup_never_fails (customers : List Customer)
    (scdMap : List (String × ScdChange)) (cities : List (String × String))
    (startD cutoff : Nat) (hnd : (customers.map (fun x => x.customer_id)).Nodup)
    (cid : String) (hcid : cid ∈ customers.map (fun x => x.customer_id))
    (hu : cid ≠ unknownCustomerId) (d : Nat) :
    get_customer_sk (build_dim_customer_scd2 customers scdMap cities startD cutoff)
        (some cid) d
      = resolveSpec (build_dim_customer_scd2 customers scdMap cities startD cutoff) cid d ∧
    ∃ r ∈ build_dim_customer_scd2 customers scdMap cities startD cutoff,
      r.customer_id = cid ∧
      get_customer_sk (build_dim_customer_scd2 customers scdMap cities startD cutoff)
          (some cid) d = r.customer_sk := by
  unfold build_dim_customer_scd2
  obtain ⟨c, hc, rfl⟩ := List.mem_map.mp hcid
  rw [get_customer_sk_known _ _ _ hu, resolveSpec]
  cases hl : scdMap.lookup c.customer_id with
  | some scd =>
    obtain ⟨skc, hrows⟩ :=
      customerRows_build_some scdMap cities startD cutoff c scd hl customers hnd hc 1
    rw [hrows]
    constructor
    · exact resolve_pair_spec_eq _ _ d (cutoff - 1) rfl rfl rfl rfl
    · obtain ⟨r, hr, heq⟩ := resolveOnRows_mem_cons (scdV1Row c scd skc startD cutoff)
        [scdV2Row c scd (skc + 1) cutoff] d
      have hrf : r ∈ customerRows (buildDimRows scdMap cities startD cutoff customers 1)
          c.customer_id := by
        rw [hrows]
        exact hr
      refine ⟨r, List.mem_of_mem_filter hrf, ?_, heq⟩
      have := List.of_mem_filter hrf
      simpa using this
  | none =>
    obtain ⟨skc, hrows⟩ :=
      customerRows_build_none scdMap cities startD cutoff c hl customers hnd hc 1
    rw [hrows]
    constructor
    · rw [resolveOnRows_current_single _ d rfl, resolveSpecRows_current_single _ d rfl]
    · have hrf : noChangeRow c cities skc startD ∈
          customerRows (buildDimRows scdMap cities startD cutoff customers 1)
            c.customer_id := by
        rw [hrows]
        exact List.mem_cons_self _ _
      refine ⟨noChangeRow c cities skc startD, List.mem_of_mem_filter hrf, rfl,
        resolveOnRows_current_single _ d rfl⟩

/-- Witness for claim C3 at a date far beyond every interval (day 999999 is
later than the 2099-12-31 fallback timestamp), where the code path and the
specified fallback chain still agree. -/
theorem claim_C3_lookup_never_fails_witness :
    ((demoCustomers.map (fun x => x.customer_id)).Nodup ∧
      cust0007 ∈ demoCustomers.map (fun x => x.customer_id) ∧
      cust0007 ≠ unknownCustomerId) ∧
    (get_customer_sk (build_dim_customer_scd2 demoCustomers demoScdMap demoCities demoStart
          demoCutoff) (some cust0007) 999999
        = resolveSpec (build_dim_customer_scd2 demoCustomers demoScdMap demoCities demoStart
            demoCutoff) cust0007 999999 ∧
      ∃ r ∈ build_dim_customer_scd2 demoCustomers demoScdMap demoCities demoStart demoCutoff,
        r.customer_id = cust0007 ∧
        get_customer_sk (build_dim_customer_scd2 demoCustomers demoScdMap demoCities demoStart
            demoCutoff) (some cust0007) 999999 = r.customer_sk) ∧
    get_customer_sk demoDim (some cust0007) 999999 = 2 := by
  refine ⟨⟨by decide, by decide, by decide⟩, ?_, by decide⟩
  exact claim_C3_lookup_never_fails demoCustomers demoScdMap demoCities demoStart demoCutoff
    (by decide) cust0007 (by decide) (by decide) 999999

/-- Claim C10: for a customer with a declared change, a transaction dated
strictly before the global start date matches no version interval, and
get_customer_sk falls back to the is-current version: the pre-range sale is
attributed to the after-change (version 2) attributes. -/
theorem claim_C10_pre_range_current (customers : List Customer)
    (scdMap : List (String × ScdChange)) (cities : List (String × String))
    (startD cutoff : Nat) (hnd : (customers.map (fun x => x.customer_id)).Nodup)
    (hsc : startD < cutoff) (c : Customer) (hc : c ∈ customers) (scd : ScdChange)
    (hscd : scdMap.lookup c.customer_id = some scd) (hu : c.customer_id ≠ unknownCustomerId)
    (d : Nat) (hd : d < startD) :
    ∃ r1 r2 : DimCustomerRow,
      customerRows (build_dim_customer_scd2 customers scdMap cities startD cutoff)
          c.customer_id = [r1, r2] ∧
      (∀ r ∈ customerRows (build_dim_customer_scd2 customers scdMap cities startD cutoff)
          c.customer_id, specContains r d = false) ∧
      r2.is_current = true ∧ r2.version = 2 ∧ r2.city = scd.new_city ∧
      get_customer_sk (build_dim_customer_scd2 customers scdMap cities startD cutoff)
          (some c.customer_id) d = r2.customer_sk := by
  unfold build_dim_customer_scd2
  obtain ⟨skc, hrows⟩ :=
    customerRows_build_some scdMap cities startD cutoff c scd hscd customers hnd hc 1
  refine ⟨_, _, hrows, ?_, rfl, rfl, rfl, ?_⟩
  · intro r hr
    rw [hrows] at hr
    rcases List.mem_cons.mp hr with rfl | hr2
    · simp only [specContains, scdV1Row, Bool.and_eq_false_iff, decide_eq_false_iff_not]
      omega
    · rcases List.mem_cons.mp hr2 with rfl | hr3
      · simp only [specContains, scdV2Row, Bool.and_true, decide_eq_false_iff_not]
        omega
      · cases hr3
  · rw [get_customer_sk_known _ _ _ hu, hrows,
      resolveOnRows_scd_pair_pre c scd skc startD cutoff d hsc hd]
    simp [scdV2Row]

/-! ## Claim about the product dimension -/

theorem mem_dropDuplicatesAux (t : ProductTriple) :
    ∀ (l : List ProductTriple) (seen : List ProductTriple),
      t ∈ dropDuplicatesAux seen l ↔ t ∈ l ∧ t ∉ seen := by
  intro l
  induction l with
  | nil =>
    intro seen
    simp [dropDuplicatesAux]
  | cons x ts ih =>
    intro seen
    by_cases hx : x ∈ seen
    · rw [dropDuplicatesAux, if_pos hx, ih]
      constructor
      · rintro ⟨h1, h2⟩
        exact ⟨List.mem_cons_of_mem x h1, h2⟩
      · rintro ⟨h1, h2⟩
        rcases List.mem_cons.mp h1 with rfl | h3
        · exact absurd hx h2
        · exact ⟨h3, h2⟩
    · rw [dropDuplicatesAux, if_neg hx]
      constructor
      · intro h
        rcases List.mem_cons.mp h with rfl | h2
        · exact ⟨List.mem_cons_self _ _, hx⟩
        · rw [ih] at h2
          obtain ⟨h3, h4⟩ := h2
          exact ⟨List.mem_cons_of_mem x h3, fun hs => h4 (List.mem_cons_of_mem x hs)⟩
      · rintro ⟨h1, h2⟩
        rcases List.mem_cons.mp h1 with rfl | h3
        · exact List.mem_cons_self _ _
        · by_cases htx : t = x
          · subst htx
            exact List.mem_cons_self _ _
          · apply List.mem_cons_of_mem
            rw [ih]
            exact ⟨h3, fun hs => (List.mem_cons.mp hs).elim htx h2⟩

theorem nodup_dropDuplicatesAux :
    ∀ (l : List ProductTriple) (seen : List ProductTriple), (dropDuplicatesAux seen l).Nodup := by
  intro l
  induction l with
  | nil =>
    intro seen
    simp [dropDuplicatesAux]
  | cons x ts ih =>
    intro seen
    by_cases hx : x ∈ seen
    · rw [dropDuplicatesAux, if_pos hx]
      exact ih seen
    · rw [dropDuplicatesAux, if_neg hx]
      refine List.nodup_cons.mpr ⟨?_, ih (x :: seen)⟩
      intro hmem
      rw [mem_dropDuplicatesAux] at hmem
      exact hmem.2 (List.mem_cons_self x seen)

theorem mem_dropDuplicates (t : ProductTriple) (l : List ProductTriple) :
    t ∈ dropDuplicates l ↔ t ∈ l := by
  rw [dropDuplicates, mem_dropDuplicatesAux]
  simp

theorem nodup_dropDuplicates (l : List ProductTriple) : (dropDuplicates l).Nodup :=
  nodup_dropDuplicatesAux l []

theorem assignSk_map_triple :
    ∀ (l : List ProductTriple) (sk : Int), (assignSk sk l).map DimProductRow.triple = l := by
  intro l
  induction l with
  | nil =>
    intro sk
    rfl
  | cons t ts ih =>
    intro sk
    simp [assignSk, DimProductRow.triple, ih (sk + 1)]

theorem assignSk_length (l : List ProductTriple) (sk : Int) :
    (assignSk sk l).length = l.length := by
  have := congrArg List.length (assignSk_map_triple l sk)
  simpa using this

theorem assignSk_map_sk :
    ∀ (l : List ProductTriple) (sk : Int),
      (assignSk sk l).map (fun r => r.product_sk)
        = (List.range l.length).map (fun i => sk + Int.ofNat i) := by
  intro l
  induction l with
  | nil =>
    intro sk
    rfl
  | cons t ts ih =>
    intro sk
    rw [assignSk, List.map_cons, ih (sk + 1), List.length_cons, List.range_succ_eq_map,
      List.map_cons, List.map_map]
    congr 1
    · simp
    · apply List.map_congr_left
      intro i _
      simp only [Function.comp_apply, Int.ofNat_eq_natCast]
      push_cast
      ring

theorem assignSk_pairwise (l : List ProductTriple) (sk : Int) (h : l.Pairwise prodLE) :
    (assignSk sk l).Pairwise (fun a b => a.product_id ≤ b.product_id) := by
  have hm : ((assignSk sk l).map DimProductRow.triple).Pairwise prodLE := by
    rw [assignSk_map_triple]
    exact h
  rw [List.pairwise_map] at hm
  exact hm

/-- Claim C8: build_dim_product outputs exactly the distinct (product
identifier, name, category) combinations of the input, each distinct
combination its own row, sorted by natural product identifier, with the
dense surrogate keys 1..N assigned in that order. -/
theorem claim_C8_dim_product_distinct_sorted (sales : List SaleRecord) :
    ((build_dim_product sales).map DimProductRow.triple).Nodup ∧
    (∀ t : ProductTriple,
      t ∈ (build_dim_product sales).map DimProductRow.triple ↔ t ∈ sales.map saleTriple) ∧
    (build_dim_product sales).Pairwise (fun a b => a.product_id ≤ b.product_id) ∧
    (build_dim_product sales).map (fun r => r.product_sk)
      = (List.range (build_dim_product sales).length).map (fun i => 1 + Int.ofNat i) := by
  have hperm : List.Perm (List.insertionSort prodLE (dropDuplicates (sales.map saleTriple)))
      (dropDuplicates (sales.map saleTriple)) := List.perm_insertionSort prodLE _
  refine ⟨?_, ?_, ?_, ?_⟩
  · rw [build_dim_product, assignSk_map_triple]
    exact hperm.nodup_iff.mpr (nodup_dropDuplicates _)
  · intro t
    rw [build_dim_product, assignSk_map_triple, hperm.mem_iff, mem_dropDuplicates]
  · rw [build_dim_product]
    exact assignSk_pairwise _ 1 (List.sorted_insertionSort prodLE _)
  · rw [build_dim_product, assignSk_map_sk, assignSk_length]

/-- Witness for claim C10: a sale dated 2022-12-31 (day 738519), one day
before the global start, resolves to the Jaipur (version 2) key 2. -/
theorem claim_C10_pre_range_current_witness :
    ((demoCustomers.map (fun x => x.customer_id)).Nodup ∧ demoStart < demoCutoff ∧
      demoCustomer7 ∈ demoCustomers ∧
      demoScdMap.lookup demoCustomer7.customer_id = some demoChange7 ∧
      demoCustomer7.customer_id ≠ unknownCustomerId ∧ 738519 < demoStart) ∧
    (∃ r1 r2 : DimCustomerRow,
      customerRows (build_dim_customer_scd2 demoCustomers demoScdMap demoCities demoStart
          demoCutoff) demoCustomer7.customer_id = [r1, r2] ∧
      (∀ r ∈ customerRows (build_dim_customer_scd2 demoCustomers demoScdMap demoCities
          demoStart demoCutoff) demoCustomer7.customer_id, specContains r 738519 = false) ∧
      r2.is_current = true ∧ r2.version = 2 ∧ r2.city = demoChange7.new_city ∧
      get_customer_sk (build_dim_customer_scd2 demoCustomers demoScdMap demoCities demoStart
          demoCutoff) (some demoCustomer7.customer_id) 738519 = r2.customer_sk) ∧
    get_customer_sk demoDim (some cust0007) 738519 = 2 := by
  refine ⟨⟨by decide, by decide, by decide, by decide, by decide, by decide⟩, ?_, by decide⟩
  exact claim_C10_pre_range_current demoCustomers demoScdMap demoCities demoStart demoCutoff
    (by decide) (by decide) demoCustomer7 (by decide) demoChange7 (by decide) (by decide)
    738519 (by decide)

end RetailDataHub
